import Mathlib

/-!
Verification of the client-side Kepler leapfrog integrator
(generateEnsemble and integrate in src/client/src/supabaseClient.ts).

The embedding is shallow: JavaScript numbers are modelled as real numbers,
Math.random as an explicit stream of reals consumed left to right, and the
imperative per-step loops as iterated step functions.  The primary-orbit
update (source lines 165-183) and the ensemble-particle update (source
lines 190-222) are transcribed as two separate Lean functions so that their
equality is a theorem, not a modelling artefact.
-/

namespace Galastudio

/-- A three-component real vector, the Vector3 type of the source. -/
structure Vec3 where
  x : ℝ
  y : ℝ
  z : ℝ

/-- Conversion constant: 1 km/s times 1 Myr expressed in kpc. -/
def KM_S_TO_KPC_MYR : ℝ := 1.022712165e-3

/-- Conversion constant: 1 kpc per (1 km/s times 1 Myr). -/
def KPC_TO_KM_S_MYR : ℝ := 977.79222

/-- Gravitational constant in galactic units, kpc (km/s)^2 / Msun. -/
def G_GALACTIC : ℝ := 4.30091e-6

/-- Gravitational constant in solar-system units, 4 pi^2 AU^3 / yr^2 Msun. -/
def G_SOLAR : ℝ := 39.4784176

/-- The unit-system selector, the union type galactic | solarsystem. -/
inductive UnitSystem where
  | galactic
  | solarsystem

/-- The constants resolved by the unit-setup block of integrate:
gravitational constant, mass scale (the factor applied to massOriginal),
position increment scale C_x, velocity scale C_v, acceleration scale. -/
structure UnitConfig where
  G : ℝ
  massScale : ℝ
  C_x : ℝ
  C_v : ℝ
  Acc_Factor : ℝ

/-- Unit resolution, source lines 93-105.  The solarsystem branch leaves the
mass unscaled, which we record as mass scale 1. -/
def resolveUnits : UnitSystem → UnitConfig
  | .solarsystem => ⟨G_SOLAR, 1.0, 1.0, 1.0, 1.0⟩
  | .galactic => ⟨G_GALACTIC, 1e10, KM_S_TO_KPC_MYR, 1.0, KPC_TO_KM_S_MYR⟩

/-- Gravitational acceleration as computed in the source (lines 138-141,
150-158, 173-176, 204-209): r2 = x² + y² + z², r = sqrt r2,
a_mag = -(G·M)/(r2·r)·Acc_Factor, componentwise a = a_mag · position. -/
noncomputable def accelAt (G M AccF : ℝ) (p : Vec3) : Vec3 :=
  let r2 := p.x * p.x + p.y * p.y + p.z * p.z
  let r := Real.sqrt r2
  let a_mag := -(G * M) / (r2 * r) * AccF
  ⟨a_mag * p.x, a_mag * p.y, a_mag * p.z⟩

/-- The per-particle mutable state: position, velocity and the loop-carried
acceleration. -/
structure PState where
  pos : Vec3
  vel : Vec3
  acc : Vec3

/-- One iteration of the primary-orbit loop body, source lines 165-183:
half-kick, drift, force recomputation, half-kick. -/
noncomputable def primaryStep (G M dt C_x C_v AccF : ℝ) (s : PState) : PState :=
  let vx := s.vel.x + s.acc.x * 0.5 * dt * C_v
  let vy := s.vel.y + s.acc.y * 0.5 * dt * C_v
  let vz := s.vel.z + s.acc.z * 0.5 * dt * C_v
  let x := s.pos.x + vx * dt * C_x
  let y := s.pos.y + vy * dt * C_x
  let z := s.pos.z + vz * dt * C_x
  let r2 := x * x + y * y + z * z
  let r := Real.sqrt r2
  let a_mag := -(G * M) / (r2 * r) * AccF
  let ax := a_mag * x
  let ay := a_mag * y
  let az := a_mag * z
  ⟨⟨x, y, z⟩,
   ⟨vx + ax * 0.5 * dt * C_v, vy + ay * 0.5 * dt * C_v, vz + az * 0.5 * dt * C_v⟩,
   ⟨ax, ay, az⟩⟩

/-- One iteration of the ensemble-particle loop body, source lines 190-222:
kick, drift, force, kick, transcribed independently of primaryStep. -/
noncomputable def ensembleStep (G M dt C_x C_v AccF : ℝ) (s : PState) : PState :=
  let vx1 := s.vel.x + s.acc.x * 0.5 * dt * C_v
  let vy1 := s.vel.y + s.acc.y * 0.5 * dt * C_v
  let vz1 := s.vel.z + s.acc.z * 0.5 * dt * C_v
  let x1 := s.pos.x + vx1 * dt * C_x
  let y1 := s.pos.y + vy1 * dt * C_x
  let z1 := s.pos.z + vz1 * dt * C_x
  let r2_s := x1 * x1 + y1 * y1 + z1 * z1
  let r_s := Real.sqrt r2_s
  let a_mag_s := -(G * M) / (r2_s * r_s) * AccF
  let ax1 := a_mag_s * x1
  let ay1 := a_mag_s * y1
  let az1 := a_mag_s * z1
  ⟨⟨x1, y1, z1⟩,
   ⟨vx1 + ax1 * 0.5 * dt * C_v, vy1 + ay1 * 0.5 * dt * C_v, vz1 + az1 * 0.5 * dt * C_v⟩,
   ⟨ax1, ay1, az1⟩⟩

/-- The state a particle starts the loop with: its seed position and
velocity, and the precomputed initial acceleration (source lines 138-141
for the primary, 147-159 for ensemble particles). -/
noncomputable def initState (G M AccF : ℝ) (p v : Vec3) : PState :=
  ⟨p, v, accelAt G M AccF p⟩

/-- The primary particle's state after k iterations of the loop. -/
noncomputable def primStates (G M dt C_x C_v AccF : ℝ) (s0 : PState) : ℕ → PState
  | 0 => s0
  | n + 1 => primaryStep G M dt C_x C_v AccF (primStates G M dt C_x C_v AccF s0 n)

/-- An ensemble particle's state after k iterations of the loop. -/
noncomputable def ensStates (G M dt C_x C_v AccF : ℝ) (s0 : PState) : ℕ → PState
  | 0 => s0
  | n + 1 => ensembleStep G M dt C_x C_v AccF (ensStates G M dt C_x C_v AccF s0 n)

/-- The random source: Math.random modelled as a stream of reals indexed by
how many draws have been made so far. -/
def RandStream : Type := ℕ → ℝ

open Classical

/-- Index of the first draw at or after position i that is nonzero; models
the while-loops of randn that redraw on a zero.  If the stream is zero from
i on (impossible for a terminating run) the index is returned unchanged. -/
noncomputable def nextIdx (s : RandStream) (i : ℕ) : ℕ :=
  if h : ∃ j, s (i + j) ≠ 0 then i + Nat.find h else i

/-- The Box-Muller combination sqrt(-2 ln u) · cos(2 pi v), source line 57. -/
noncomputable def boxMullerZ (u v : ℝ) : ℝ :=
  Real.sqrt (-2.0 * Real.log u) * Real.cos (2.0 * Real.pi * v)

/-- The randn closure of generateEnsemble, source lines 53-58: draw u
rejecting zeros, then draw v rejecting zeros, and combine by Box-Muller.
Returns the variate together with the stream cursor after the call. -/
noncomputable def randn (s : RandStream) (i : ℕ) : ℝ × ℕ :=
  let iu := nextIdx s i
  let iv := nextIdx s (iu + 1)
  (boxMullerZ (s iu) (s iv), iv + 1)

/-- Position dispersion, source line 48. -/
def d_pos : ℝ := 1e-4

/-- Velocity dispersion, source line 49. -/
def d_vel : ℝ := 1e-4

/-- One perturbed vector, source lines 60-64 or 66-70: three independent
randn draws, one per component, each scaled by the dispersion d. -/
noncomputable def perturbVec (c : Vec3) (d : ℝ) (s : RandStream) (i : ℕ) : Vec3 × ℕ :=
  let r1 := randn s i
  let r2 := randn s r1.2
  let r3 := randn s r2.2
  (⟨c.x + r1.1 * d, c.y + r2.1 * d, c.z + r3.1 * d⟩, r3.2)

/-- The body of the generateEnsemble loop, source lines 51-71, with the
remaining iteration count and current stream cursor explicit; pushes one
perturbed position then one perturbed velocity per iteration. -/
noncomputable def genLoop (cp cv : Vec3) (s : RandStream) : ℕ → ℕ → List Vec3 × List Vec3
  | 0, _ => ([], [])
  | n + 1, i =>
    let p := perturbVec cp d_pos s i
    let v := perturbVec cv d_vel s p.2
    let rest := genLoop cp cv s n v.2
    (p.1 :: rest.1, v.1 :: rest.2)

/-- generateEnsemble, source lines 37-74: size perturbed positions and
velocities around the given center, consuming the random stream from 0. -/
noncomputable def generateEnsemble (cp cv : Vec3) (size : ℕ) (s : RandStream) :
    List Vec3 × List Vec3 :=
  genLoop cp cv s size 0

/-- The recorded orbit of one ensemble particle: its seed position at index
0 (source line 133) followed by its position after each loop iteration
(source line 222), advanced by the ensemble loop body. -/
noncomputable def ensembleOrbit (G M dt C_x C_v AccF : ℝ) (steps : ℕ)
    (p0 v0 : Vec3) : List Vec3 :=
  (List.range (steps + 1)).map fun k =>
    (ensStates G M dt C_x C_v AccF (initState G M AccF p0 v0) k).pos

/-- The IntegratorResult record of the source: the ensemble field is
optional and absent when no ensemble was requested. -/
structure IntegratorResult where
  points : List Vec3
  velocities : List Vec3
  ensemble : Option (List (List Vec3))

/-- integrate, source lines 76-228.  Resolves units, scales the mass, seeds
the ensemble when requested (100 particles), and advances the primary
particle with the primary loop body and every ensemble particle with the
ensemble loop body, recording positions and velocities at every step;
ensemble orbits record positions only, starting at the seed position. -/
noncomputable def integrate (massOriginal : ℝ) (pos vel : Vec3) (dt : ℝ) (steps : ℕ)
    (units : UnitSystem) (computeEnsemble : Bool) (rng : RandStream) : IntegratorResult :=
  let c := resolveUnits units
  let mass := massOriginal * c.massScale
  let ensembleSize : ℕ := if computeEnsemble then 100 else 0
  let cloud := generateEnsemble pos vel ensembleSize rng
  let s0 := initState c.G mass c.Acc_Factor pos vel
  let points := (List.range (steps + 1)).map fun k =>
    (primStates c.G mass dt c.C_x c.C_v c.Acc_Factor s0 k).pos
  let velocities := (List.range (steps + 1)).map fun k =>
    (primStates c.G mass dt c.C_x c.C_v c.Acc_Factor s0 k).vel
  let ensembleOrbits :=
    List.zipWith (ensembleOrbit c.G mass dt c.C_x c.C_v c.Acc_Factor steps)
      cloud.1 cloud.2
  ⟨points, velocities, if computeEnsemble then some ensembleOrbits else none⟩

/-- The acceleration law exactly as the specification words it: with r the
Euclidean norm of the position, the magnitude is -(G·M)/r^3 times the
acceleration scale factor, applied componentwise to the position vector. -/
noncomputable def specAccel (G M AccF : ℝ) (p : Vec3) : Vec3 :=
  let r := Real.sqrt (p.x * p.x + p.y * p.y + p.z * p.z)
  let a_mag := -(G * M) / r ^ 3 * AccF
  ⟨a_mag * p.x, a_mag * p.y, a_mag * p.z⟩

/-- One kick-drift-kick leapfrog step as the specification words it:
half-kick v by a·0.5·dt, drift x by v·dt·C_x, recompute the acceleration at
the new position by the spec law, then half-kick again. -/
noncomputable def specLeapfrogStep (G M dt C_x AccF : ℝ) (pv : Vec3 × Vec3) :
    Vec3 × Vec3 :=
  let a := specAccel G M AccF pv.1
  let v1 : Vec3 := ⟨pv.2.x + a.x * 0.5 * dt, pv.2.y + a.y * 0.5 * dt,
    pv.2.z + a.z * 0.5 * dt⟩
  let p1 : Vec3 := ⟨pv.1.x + v1.x * dt * C_x, pv.1.y + v1.y * dt * C_x,
    pv.1.z + v1.z * dt * C_x⟩
  let a1 := specAccel G M AccF p1
  (p1, ⟨v1.x + a1.x * 0.5 * dt, v1.y + a1.y * 0.5 * dt, v1.z + a1.z * 0.5 * dt⟩)

/-- One perturbed vector as the specification words it: each component is
the seed component plus a Box-Muller standard-normal variate times the
dispersion, the three variates built from six consecutive draws of the
stream starting at position j. -/
noncomputable def specPerturb (c : Vec3) (d : ℝ) (s : RandStream) (j : ℕ) : Vec3 :=
  ⟨c.x + boxMullerZ (s j) (s (j + 1)) * d,
   c.y + boxMullerZ (s (j + 2)) (s (j + 3)) * d,
   c.z + boxMullerZ (s (j + 4)) (s (j + 5)) * d⟩

/-- The primary loop body with the force recomputation factored through
accelAt; definitionally equal to primaryStep. -/
noncomputable def kdkStep (G M dt C_x C_v AccF : ℝ) (s : PState) : PState :=
  let v1 : Vec3 := ⟨s.vel.x + s.acc.x * 0.5 * dt * C_v,
    s.vel.y + s.acc.y * 0.5 * dt * C_v, s.vel.z + s.acc.z * 0.5 * dt * C_v⟩
  let p1 : Vec3 := ⟨s.pos.x + v1.x * dt * C_x, s.pos.y + v1.y * dt * C_x,
    s.pos.z + v1.z * dt * C_x⟩
  let a1 := accelAt G M AccF p1
  ⟨p1,
   ⟨v1.x + a1.x * 0.5 * dt * C_v, v1.y + a1.y * 0.5 * dt * C_v,
    v1.z + a1.z * 0.5 * dt * C_v⟩,
   a1⟩

/-! ## General lemmas about the embedding -/

theorem primaryStep_eq_kdk (G M dt C_x C_v AccF : ℝ) (s : PState) :
    primaryStep G M dt C_x C_v AccF s = kdkStep G M dt C_x C_v AccF s := rfl

theorem accelAt_eq_specAccel (G M AccF : ℝ) (p : Vec3) :
    accelAt G M AccF p = specAccel G M AccF p := by
  have h2 : (0 : ℝ) ≤ p.x * p.x + p.y * p.y + p.z * p.z := by
    have hx := mul_self_nonneg p.x
    have hy := mul_self_nonneg p.y
    have hz := mul_self_nonneg p.z
    linarith
  have key : (p.x * p.x + p.y * p.y + p.z * p.z) *
      Real.sqrt (p.x * p.x + p.y * p.y + p.z * p.z) =
      Real.sqrt (p.x * p.x + p.y * p.y + p.z * p.z) ^ 3 := by
    rw [pow_succ, Real.sq_sqrt h2]
  simp only [accelAt, specAccel]
  rw [key]

theorem primaryStep_acc (G M dt C_x C_v AccF : ℝ) (s : PState) :
    (primaryStep G M dt C_x C_v AccF s).acc =
      accelAt G M AccF (primaryStep G M dt C_x C_v AccF s).pos := rfl

theorem primStates_acc (G M dt C_x C_v AccF : ℝ) (p v : Vec3) (k : ℕ) :
    (primStates G M dt C_x C_v AccF (initState G M AccF p v) k).acc =
      accelAt G M AccF
        (primStates G M dt C_x C_v AccF (initState G M AccF p v) k).pos := by
  cases k with
  | zero => rfl
  | succ n => exact primaryStep_acc G M dt C_x C_v AccF _

theorem primaryStep_spec (G M dt C_x AccF : ℝ) (s : PState)
    (hacc : s.acc = accelAt G M AccF s.pos) :
    ((primaryStep G M dt C_x 1 AccF s).pos, (primaryStep G M dt C_x 1 AccF s).vel) =
      specLeapfrogStep G M dt C_x AccF (s.pos, s.vel) := by
  rw [primaryStep_eq_kdk]
  simp only [kdkStep, specLeapfrogStep, hacc, ← accelAt_eq_specAccel, mul_one]

theorem resolveUnits_C_v (u : UnitSystem) : (resolveUnits u).C_v = 1 := by
  cases u <;> norm_num [resolveUnits]

theorem getD_map_range {α : Type _} (f : ℕ → α) (n i : ℕ) (hi : i < n) (d : α) :
    ((List.range n).map f).getD i d = f i := by
  simp [List.getD_eq_getElem?_getD, List.getElem?_map, List.getElem?_range, hi]

theorem nextIdx_self (s : RandStream) (i : ℕ) (h0 : s i ≠ 0) : nextIdx s i = i := by
  unfold nextIdx
  have hex : ∃ j, s (i + j) ≠ 0 := ⟨0, by simpa using h0⟩
  rw [dif_pos hex]
  have hfind : Nat.find hex = 0 := by
    rw [Nat.find_eq_zero]
    simpa using h0
  omega

theorem nextIdx_succ_of_zero (t : RandStream) (i : ℕ) (h0 : t i = 0)
    (hex : ∃ j, t (i + 1 + j) ≠ 0) : nextIdx t i = nextIdx t (i + 1) := by
  unfold nextIdx
  have hex' : ∃ j, t (i + j) ≠ 0 := by
    obtain ⟨j, hj⟩ := hex
    exact ⟨j + 1, by rwa [show i + (j + 1) = i + 1 + j by omega]⟩
  rw [dif_pos hex', dif_pos hex]
  have h1 : Nat.find hex' = Nat.find hex + 1 := by
    rw [Nat.find_eq_iff]
    constructor
    · rw [show i + (Nat.find hex + 1) = i + 1 + Nat.find hex by omega]
      exact Nat.find_spec hex
    · intro k hk
      cases k with
      | zero => simpa using h0
      | succ j =>
        have hj : j < Nat.find hex := by omega
        have hmin := Nat.find_min hex hj
        rw [show i + (j + 1) = i + 1 + j by omega]
        simpa using hmin
  omega

theorem randn_of_zero (t : RandStream) (i : ℕ) (h0 : t i = 0)
    (hex : ∃ j, t (i + 1 + j) ≠ 0) : randn t i = randn t (i + 1) := by
  unfold randn
  rw [nextIdx_succ_of_zero t i h0 hex]

theorem randn_all_nonzero (s : RandStream) (hs : ∀ m, s m ≠ 0) (i : ℕ) :
    randn s i = (boxMullerZ (s i) (s (i + 1)), i + 2) := by
  simp only [randn]
  rw [nextIdx_self s i (hs i), nextIdx_self s (i + 1) (hs (i + 1))]

theorem perturbVec_all_nonzero (c : Vec3) (d : ℝ) (s : RandStream)
    (hs : ∀ m, s m ≠ 0) (i : ℕ) :
    perturbVec c d s i = (specPerturb c d s i, i + 6) := by
  simp only [perturbVec, specPerturb, randn_all_nonzero s hs]

theorem genLoop_getD (cp cv : Vec3) (s : RandStream) (hs : ∀ m, s m ≠ 0) :
    ∀ (n i k : ℕ), k < n →
      (genLoop cp cv s n i).1.getD k ⟨0, 0, 0⟩ =
        specPerturb cp d_pos s (i + 12 * k) ∧
      (genLoop cp cv s n i).2.getD k ⟨0, 0, 0⟩ =
        specPerturb cv d_vel s (i + 12 * k + 6) := by
  intro n
  induction n with
  | zero => intro i k hk; omega
  | succ n ih =>
    intro i k hk
    cases k with
    | zero =>
      rw [show i + 12 * 0 = i by omega, show i + 12 * 0 + 6 = i + 6 by omega]
      simp [genLoop, perturbVec_all_nonzero cp d_pos s hs,
        perturbVec_all_nonzero cv d_vel s hs]
    | succ k' =>
      have H := ih (i + 12) k' (by omega)
      simp only [genLoop, perturbVec_all_nonzero cp d_pos s hs,
        perturbVec_all_nonzero cv d_vel s hs, List.getD_cons_succ]
      constructor
      · rw [H.1, show i + 12 + 12 * k' = i + 12 * (k' + 1) by ring]
      · rw [H.2, show i + 12 + 12 * k' + 6 = i + 12 * (k' + 1) + 6 by ring]

theorem genLoop_length (cp cv : Vec3) (s : RandStream) (n : ℕ) :
    ∀ i, (genLoop cp cv s n i).1.length = n ∧ (genLoop cp cv s n i).2.length = n := by
  induction n with
  | zero => intro i; exact ⟨rfl, rfl⟩
  | succ n ih => intro i; simp [genLoop, ih]

theorem generateEnsemble_length (cp cv : Vec3) (size : ℕ) (s : RandStream) :
    (generateEnsemble cp cv size s).1.length = size ∧
    (generateEnsemble cp cv size s).2.length = size :=
  genLoop_length cp cv s size 0

theorem zipWith_mem_imp {α β γ : Type _} (f : α → β → γ) (P : γ → Prop)
    (h : ∀ a b, P (f a b)) :
    ∀ (l1 : List α) (l2 : List β), ∀ c ∈ List.zipWith f l1 l2, P c := by
  intro l1
  induction l1 with
  | nil => intro l2 c hc; simp at hc
  | cons a t ih =>
    intro l2 c hc
    cases l2 with
    | nil => simp at hc
    | cons b t2 =>
      simp only [List.zipWith_cons_cons, List.mem_cons] at hc
      rcases hc with rfl | hc
      · exact h a b
      · exact ih t2 c hc

theorem ensembleOrbit_length (G M dt C_x C_v AccF : ℝ) (steps : ℕ) (p0 v0 : Vec3) :
    (ensembleOrbit G M dt C_x C_v AccF steps p0 v0).length = steps + 1 := by
  simp [ensembleOrbit]

theorem integrate_ensemble_eq (m : ℝ) (p v : Vec3) (dt : ℝ) (steps : ℕ)
    (u : UnitSystem) (rng : RandStream) :
    (integrate m p v dt steps u true rng).ensemble =
      some (List.zipWith
        (ensembleOrbit (resolveUnits u).G (m * (resolveUnits u).massScale) dt
          (resolveUnits u).C_x (resolveUnits u).C_v (resolveUnits u).Acc_Factor steps)
        (generateEnsemble p v 100 rng).1 (generateEnsemble p v 100 rng).2) := rfl

theorem integrate_points_eq (m : ℝ) (p v : Vec3) (dt : ℝ) (steps : ℕ)
    (u : UnitSystem) (b : Bool) (rng : RandStream) :
    (integrate m p v dt steps u b rng).points =
      (List.range (steps + 1)).map (fun k =>
        (primStates (resolveUnits u).G (m * (resolveUnits u).massScale) dt
          (resolveUnits u).C_x (resolveUnits u).C_v (resolveUnits u).Acc_Factor
          (initState (resolveUnits u).G (m * (resolveUnits u).massScale)
            (resolveUnits u).Acc_Factor p v) k).pos) := rfl

theorem integrate_velocities_eq (m : ℝ) (p v : Vec3) (dt : ℝ) (steps : ℕ)
    (u : UnitSystem) (b : Bool) (rng : RandStream) :
    (integrate m p v dt steps u b rng).velocities =
      (List.range (steps + 1)).map (fun k =>
        (primStates (resolveUnits u).G (m * (resolveUnits u).massScale) dt
          (resolveUnits u).C_x (resolveUnits u).C_v (resolveUnits u).Acc_Factor
          (initState (resolveUnits u).G (m * (resolveUnits u).massScale)
            (resolveUnits u).Acc_Factor p v) k).vel) := rfl

/-! ## Claim theorems -/

/-- C1: for every call to integrate and every trajectory index i below
steps, the entry at index i + 1 is obtained from the entry at index i by
exactly one kick-drift-kick leapfrog step with the resolved constants:
half-kick v by a·0.5·dt, drift x by v·dt·C_x, recomputation of the
acceleration -(G·M)/r^3·Acc_Factor at the new position with M the scaled
mass and r the norm of the position, then a second half-kick. -/
theorem integrate_leapfrog_invariant (m : ℝ) (p v : Vec3) (dt : ℝ) (steps : ℕ)
    (u : UnitSystem) (b : Bool) (rng : RandStream) (i : ℕ) (hi : i < steps) :
    ((integrate m p v dt steps u b rng).points.getD (i + 1) ⟨0, 0, 0⟩,
     (integrate m p v dt steps u b rng).velocities.getD (i + 1) ⟨0, 0, 0⟩) =
      specLeapfrogStep (resolveUnits u).G (m * (resolveUnits u).massScale) dt
        (resolveUnits u).C_x (resolveUnits u).Acc_Factor
        ((integrate m p v dt steps u b rng).points.getD i ⟨0, 0, 0⟩,
         (integrate m p v dt steps u b rng).velocities.getD i ⟨0, 0, 0⟩) := by
  rw [integrate_points_eq, integrate_velocities_eq,
    getD_map_range _ _ _ (by omega : i + 1 < steps + 1),
    getD_map_range _ _ _ (by omega : i + 1 < steps + 1),
    getD_map_range _ _ _ (by omega : i < steps + 1),
    getD_map_range _ _ _ (by omega : i < steps + 1),
    resolveUnits_C_v]
  exact primaryStep_spec _ _ _ _ _ _ (primStates_acc _ _ _ _ _ _ _ _ _)

/-- Witness for C1 at a concrete input. -/
theorem integrate_leapfrog_invariant_witness :
    0 < 1 ∧
    (((integrate 0 ⟨1, 0, 0⟩ ⟨0, 0, 0⟩ 1 1 UnitSystem.solarsystem false
        (fun _ => 0)).points.getD (0 + 1) ⟨0, 0, 0⟩,
      (integrate 0 ⟨1, 0, 0⟩ ⟨0, 0, 0⟩ 1 1 UnitSystem.solarsystem false
        (fun _ => 0)).velocities.getD (0 + 1) ⟨0, 0, 0⟩) =
      specLeapfrogStep (resolveUnits UnitSystem.solarsystem).G
        (0 * (resolveUnits UnitSystem.solarsystem).massScale) 1
        (resolveUnits UnitSystem.solarsystem).C_x
        (resolveUnits UnitSystem.solarsystem).Acc_Factor
        ((integrate 0 ⟨1, 0, 0⟩ ⟨0, 0, 0⟩ 1 1 UnitSystem.solarsystem false
          (fun _ => 0)).points.getD 0 ⟨0, 0, 0⟩,
         (integrate 0 ⟨1, 0, 0⟩ ⟨0, 0, 0⟩ 1 1 UnitSystem.solarsystem false
          (fun _ => 0)).velocities.getD 0 ⟨0, 0, 0⟩)) :=
  ⟨Nat.one_pos,
   integrate_leapfrog_invariant 0 ⟨1, 0, 0⟩ ⟨0, 0, 0⟩ 1 1 UnitSystem.solarsystem
     false (fun _ => 0) 0 Nat.one_pos⟩

/-- C2: for every call to integrate with steps greater or equal 0 the returned
trajectory has length exactly steps + 1 in both its points and velocities, its
entry at index 0 is the unconverted input position and velocity, and steps = 0
yields a trajectory containing only that initial state. -/
theorem integrate_trajectory_shape (m : ℝ) (p v : Vec3) (dt : ℝ) (steps : ℕ)
    (u : UnitSystem) (b : Bool) (rng : RandStream) :
    (integrate m p v dt steps u b rng).points.length = steps + 1 ∧
    (integrate m p v dt steps u b rng).velocities.length = steps + 1 ∧
    (integrate m p v dt steps u b rng).points.getD 0 ⟨0, 0, 0⟩ = p ∧
    (integrate m p v dt steps u b rng).velocities.getD 0 ⟨0, 0, 0⟩ = v ∧
    (integrate m p v dt 0 u b rng).points = [p] ∧
    (integrate m p v dt 0 u b rng).velocities = [v] := by
  refine ⟨by simp [integrate], by simp [integrate], ?_, ?_, ?_, ?_⟩
  · show ((List.range (steps + 1)).map _).getD 0 _ = p
    rw [getD_map_range _ _ _ (Nat.succ_pos steps)]
    rfl
  · show ((List.range (steps + 1)).map _).getD 0 _ = v
    rw [getD_map_range _ _ _ (Nat.succ_pos steps)]
    rfl
  · rfl
  · rfl

/-- C3: the unit resolution step maps the galactic selector to exactly
G = 4.30091e-6, mass scale 1e10, position increment scale 1.022712165e-3,
velocity scale 1 and acceleration scale 977.79222, and the solarsystem
selector to exactly G = 39.4784176 with all scales 1, as a pure function of
the selector alone. -/
theorem resolveUnits_values :
    resolveUnits .galactic = ⟨4.30091e-6, 1e10, 1.022712165e-3, 1.0, 977.79222⟩ ∧
    resolveUnits .solarsystem = ⟨39.4784176, 1.0, 1.0, 1.0, 1.0⟩ :=
  ⟨rfl, rfl⟩

/-- C4: with computeEnsemble true the returned ensemble is present, contains
exactly 100 trajectories, and every member has length steps + 1, the length
of the primary trajectory. -/
theorem integrate_ensemble_shape (m : ℝ) (p v : Vec3) (dt : ℝ) (steps : ℕ)
    (u : UnitSystem) (rng : RandStream) :
    ∃ ens, (integrate m p v dt steps u true rng).ensemble = some ens ∧
      ens.length = 100 ∧
      (∀ o ∈ ens, o.length = steps + 1) ∧
      (integrate m p v dt steps u true rng).points.length = steps + 1 := by
  refine ⟨_, integrate_ensemble_eq m p v dt steps u rng, ?_, ?_, ?_⟩
  · rw [List.length_zipWith, (generateEnsemble_length p v 100 rng).1,
      (generateEnsemble_length p v 100 rng).2]
    simp
  · exact zipWith_mem_imp _ (fun l : List Vec3 => l.length = steps + 1)
      (fun a b => ensembleOrbit_length _ _ _ _ _ _ steps a b) _ _
  · rw [integrate_points_eq]
    simp

/-- Witness for C4 at a concrete input. -/
theorem integrate_ensemble_shape_witness :
    ∃ ens, (integrate 0 ⟨1, 0, 0⟩ ⟨0, 0, 0⟩ 1 2 UnitSystem.galactic true
        (fun _ => 0)).ensemble = some ens ∧
      ens.length = 100 ∧
      (∀ o ∈ ens, o.length = 2 + 1) ∧
      (integrate 0 ⟨1, 0, 0⟩ ⟨0, 0, 0⟩ 1 2 UnitSystem.galactic true
        (fun _ => 0)).points.length = 2 + 1 :=
  integrate_ensemble_shape 0 ⟨1, 0, 0⟩ ⟨0, 0, 0⟩ 1 2 UnitSystem.galactic (fun _ => 0)

/-- C5: one iteration of the ensemble update loop is the identical function
of a particle state as one iteration of the primary update loop, for every
state and every choice of mass, dt, G and scale factors; and each ensemble
particle advances by that function applied to its own state alone. -/
theorem ensembleStep_eq_primaryStep (G M dt C_x C_v AccF : ℝ) (s : PState) :
    ensembleStep G M dt C_x C_v AccF s = primaryStep G M dt C_x C_v AccF s ∧
    ∀ s0 k, ensStates G M dt C_x C_v AccF s0 (k + 1) =
      ensembleStep G M dt C_x C_v AccF (ensStates G M dt C_x C_v AccF s0 k) :=
  ⟨rfl, fun _ _ => rfl⟩

/-- C6: generateEnsemble returns exactly size perturbed positions and size
perturbed velocities; when the stream never draws a zero, the k-th perturbed
position perturbs every seed component by a Box-Muller variate times 1e-4
built from two fresh draws per component, the k-th perturbed velocity
likewise with the same sigma 1e-4; and a zero draw for u is rejected, the
variate being rebuilt from the following draws. -/
theorem generateEnsemble_spec (cp cv : Vec3) (size : ℕ) (s : RandStream)
    (hs : ∀ m, s m ≠ 0) :
    (generateEnsemble cp cv size s).1.length = size ∧
    (generateEnsemble cp cv size s).2.length = size ∧
    (∀ k, k < size →
      (generateEnsemble cp cv size s).1.getD k ⟨0, 0, 0⟩ =
        specPerturb cp 1e-4 s (12 * k) ∧
      (generateEnsemble cp cv size s).2.getD k ⟨0, 0, 0⟩ =
        specPerturb cv 1e-4 s (12 * k + 6)) ∧
    (∀ (t : RandStream) (i : ℕ), t i = 0 → (∃ j, t (i + 1 + j) ≠ 0) →
      randn t i = randn t (i + 1)) := by
  refine ⟨(generateEnsemble_length cp cv size s).1,
    (generateEnsemble_length cp cv size s).2, ?_, randn_of_zero⟩
  intro k hk
  have H := genLoop_getD cp cv s hs size 0 k hk
  rw [show (0 : ℕ) + 12 * k = 12 * k by omega] at H
  exact ⟨H.1, H.2⟩

/-- Witness for C6 at a concrete input. -/
theorem generateEnsemble_spec_witness :
    (∀ m : ℕ, (fun _ : ℕ => (1 : ℝ) / 2) m ≠ 0) ∧
    ((generateEnsemble ⟨0, 0, 0⟩ ⟨0, 0, 0⟩ 1 (fun _ => (1 : ℝ) / 2)).1.length = 1 ∧
     (generateEnsemble ⟨0, 0, 0⟩ ⟨0, 0, 0⟩ 1 (fun _ => (1 : ℝ) / 2)).2.length = 1 ∧
     (∀ k, k < 1 →
       (generateEnsemble ⟨0, 0, 0⟩ ⟨0, 0, 0⟩ 1 (fun _ => (1 : ℝ) / 2)).1.getD k ⟨0, 0, 0⟩ =
         specPerturb ⟨0, 0, 0⟩ 1e-4 (fun _ => (1 : ℝ) / 2) (12 * k) ∧
       (generateEnsemble ⟨0, 0, 0⟩ ⟨0, 0, 0⟩ 1 (fun _ => (1 : ℝ) / 2)).2.getD k ⟨0, 0, 0⟩ =
         specPerturb ⟨0, 0, 0⟩ 1e-4 (fun _ => (1 : ℝ) / 2) (12 * k + 6)) ∧
     (∀ (t : RandStream) (i : ℕ), t i = 0 → (∃ j, t (i + 1 + j) ≠ 0) →
       randn t i = randn t (i + 1))) :=
  ⟨fun _ => by norm_num,
   generateEnsemble_spec ⟨0, 0, 0⟩ ⟨0, 0, 0⟩ 1 (fun _ => (1 : ℝ) / 2)
     (fun _ => by norm_num)⟩

/-- C7: with computeEnsemble false, integrate is deterministic in its
arguments: the result does not depend on the random stream at all, so two
invocations with identical arguments are equal. -/
theorem integrate_deterministic (m : ℝ) (p v : Vec3) (dt : ℝ) (steps : ℕ)
    (u : UnitSystem) (r1 r2 : RandStream) :
    integrate m p v dt steps u false r1 = integrate m p v dt steps u false r2 := rfl

/-- C9: with computeEnsemble false, the ensemble field of the result is
absent. -/
theorem integrate_ensemble_none (m : ℝ) (p v : Vec3) (dt : ℝ) (steps : ℕ)
    (u : UnitSystem) (rng : RandStream) :
    (integrate m p v dt steps u false rng).ensemble = none := rfl

/-- C10: the primary trajectory is unaffected by ensemble computation:
whatever the random draws, the points and velocities returned with
computeEnsemble true equal those returned with computeEnsemble false. -/
theorem integrate_primary_unaffected (m : ℝ) (p v : Vec3) (dt : ℝ) (steps : ℕ)
    (u : UnitSystem) (r1 r2 : RandStream) :
    (integrate m p v dt steps u true r1).points =
      (integrate m p v dt steps u false r2).points ∧
    (integrate m p v dt steps u true r1).velocities =
      (integrate m p v dt steps u false r2).velocities :=
  ⟨rfl, rfl⟩

end Galastudio
